import Mathlib

/-!
Shallow embedding of the sarmad frontend client (src/sarmad/frontend/app.jsx).

The visible source tree contains only the frontend; the backend engine
(session coordinator, window narrowing search) is referenced by the README
but its code is not under src/, so those parts are modelled from the spec
where a claim needs them, and marked as such.
-/

namespace Sarmad

/-- Engagement counters carried by a tweet, as read by TweetCard
(app.jsx lines 393-397): the record is named `public_metrics` in the source
and its fields are `retweet_count`, `like_count`, `reply_count`. -/
structure PublicMetrics where
  retweet_count : Nat
  like_count : Nat
  reply_count : Nat
  deriving Repr, DecidableEq

/-- Author data as accessed by the frontend (`tweet.author?.username`,
`tweet.author?.name`, `tweet.author?.reliability_score`). -/
structure Author where
  username : String
  name : String
  reliability_score : ℚ
  deriving Repr, DecidableEq

/-- A media attachment (`tweet.media[0].duration_ms`, possibly absent). -/
structure MediaItem where
  duration_ms : Option Nat
  deriving Repr, DecidableEq

/-- A tweet as handled by the frontend. Every field access in app.jsx is
optional-chained (`tweet.author?.…`, `tweet.public_metrics?.…`,
`tweet.media && …`), so those fields are `Option`s. -/
structure Tweet where
  id : Option String
  author : Option Author
  text : String
  created_at : String
  media : Option (List MediaItem)
  public_metrics : Option PublicMetrics
  is_source : Bool
  deriving Repr, DecidableEq

/-- A log entry as displayed by Console (`log.timestamp`, `log.level`,
`log.message`). -/
structure LogEntry where
  timestamp : Nat
  level : String
  message : String
  deriving Repr, DecidableEq

/-- One point of the volume series (`{hour, count}`). -/
structure VolumePoint where
  hour : Nat
  count : Nat
  deriving Repr, DecidableEq

/-- The search window state (`{low_hour, high_hour}`); the source stores
JavaScript numbers, modelled as rationals. -/
structure SearchWindow where
  low_hour : ℚ
  high_hour : ℚ
  deriving Repr, DecidableEq

/-- Inbound WebSocket events, one constructor per `lastMessage.type`
handled by the switch in App (app.jsx lines 546-587). -/
inductive InEvent where
  | status (status : String)
  | log (timestamp : Nat) (level : String) (message : String)
  | volume (data : List VolumePoint)
  | nlp_result (keywords : List String) (bigrams : List String)
  | search_progress (low_hour high_hour : ℚ)
  | source_found (tweet : Tweet) (iterations : Nat)
  | tweets (data : List Tweet)
  | analysis_complete
  deriving Repr, DecidableEq

/-- Outbound WebSocket requests sent by the client via `sendMessage`. -/
inductive OutMsg where
  | start_analysis (tweet_url : Option String) (tweet_id : Option String)
  | get_tweets (limit : Nat)
  | get_volume
  deriving Repr, DecidableEq

/-- The client state: one field per `useState` hook of App
(app.jsx lines 527-536). -/
structure ClientState where
  status : String
  logs : List LogEntry
  keywords : List String
  bigrams : List String
  volumeData : List VolumePoint
  searchWindow : SearchWindow
  sourceTweet : Option Tweet
  iterations : Nat
  tweets : List Tweet
  isNLPLoading : Bool
  deriving Repr, DecidableEq

/-- The initial values of the `useState` hooks. -/
def initialState : ClientState :=
  { status := "idle", logs := [], keywords := [], bigrams := [],
    volumeData := [], searchWindow := ⟨0, 24⟩, sourceTweet := none,
    iterations := 0, tweets := [], isNLPLoading := false }

/-- The message-handling effect of App: the `switch (lastMessage.type)`
of app.jsx lines 543-588, one branch per event type. -/
def handleMessage (st : ClientState) (msg : InEvent) : ClientState :=
  match msg with
  | .status s =>
      let st1 := { st with status := s }
      if s = "analyzing" then { st1 with isNLPLoading := true } else st1
  | .log ts lvl m => { st with logs := st.logs ++ [⟨ts, lvl, m⟩] }
  | .volume d => { st with volumeData := d }
  | .nlp_result ks bs =>
      { st with keywords := ks, bigrams := bs, isNLPLoading := false }
  | .search_progress lo hi => { st with searchWindow := ⟨lo, hi⟩ }
  | .source_found t n => { st with sourceTweet := some t, iterations := n }
  | .tweets d => { st with tweets := d }
  | .analysis_complete => st

/-- Processing a whole sequence of inbound events in order. -/
def processEvents (st : ClientState) (evs : List InEvent) : ClientState :=
  evs.foldl handleMessage st

/-- The log entries carried by a sequence of inbound events, in order. -/
def logEvents : List InEvent → List LogEntry
  | [] => []
  | .log ts lvl m :: es => ⟨ts, lvl, m⟩ :: logEvents es
  | .status _ :: es => logEvents es
  | .volume _ :: es => logEvents es
  | .nlp_result _ _ :: es => logEvents es
  | .search_progress _ _ :: es => logEvents es
  | .source_found _ _ :: es => logEvents es
  | .tweets _ :: es => logEvents es
  | .analysis_complete :: es => logEvents es

/-- `handleStartAnalysis` (app.jsx lines 610-625): resets the run state,
then sends the `start_analysis` request over the socket. The result pairs
the reset state with the request that is sent. -/
def handleStartAnalysis (st : ClientState) (url : Option String)
    (tweetId : Option String) : ClientState × OutMsg :=
  ({ st with logs := [], keywords := [], bigrams := [], sourceTweet := none,
             iterations := 0, searchWindow := ⟨0, 24⟩ },
   .start_analysis url tweetId)

/-- The per-status entry of StatusBadge's `statusConfig` object
(app.jsx lines 193-198). -/
structure BadgeConfig where
  label : String
  color : String
  deriving Repr, DecidableEq

/-- The `statusConfig` object of StatusBadge: it has exactly four keys —
idle, analyzing, searching, found. Labels are the source's Arabic strings
(stored UTF-8 in app.jsx). -/
def statusConfig (s : String) : Option BadgeConfig :=
  if s = "idle" then some ⟨"جاهز للرصد", "online"⟩
  else if s = "analyzing" then some ⟨"تحليل لغوي...", "analyzing"⟩
  else if s = "searching" then some ⟨"بحث عكسي...", "searching"⟩
  else if s = "found" then some ⟨"تم ضبط الهدف", "found"⟩
  else none

/-- `const config = statusConfig[status] || statusConfig.idle`
(app.jsx line 200): an unknown status falls back to the idle entry. -/
def statusBadgeConfig (s : String) : BadgeConfig :=
  (statusConfig s).getD ⟨"جاهز للرصد", "online"⟩

/-- TweetCard's rendered retweet counter:
`tweet.public_metrics?.retweet_count || 0` (app.jsx line 394). -/
def renderedRetweetCount (t : Tweet) : Nat :=
  match t.public_metrics with
  | some m => m.retweet_count
  | none => 0

/-- TweetCard's rendered like counter:
`tweet.public_metrics?.like_count || 0` (app.jsx line 395). -/
def renderedLikeCount (t : Tweet) : Nat :=
  match t.public_metrics with
  | some m => m.like_count
  | none => 0

/-- TweetCard's rendered reply counter:
`tweet.public_metrics?.reply_count || 0` (app.jsx line 396). -/
def renderedReplyCount (t : Tweet) : Nat :=
  match t.public_metrics with
  | some m => m.reply_count
  | none => 0

/-- `const isAnalyzing = status === 'analyzing' || status === 'searching'`
(app.jsx line 627). -/
def isAnalyzing (status : String) : Bool :=
  status == "analyzing" || status == "searching"

/-- The `isDisabled` prop passed to ReportForm:
`isAnalyzing || !isConnected` (app.jsx line 661). -/
def reportFormDisabled (status : String) (isConnected : Bool) : Bool :=
  isAnalyzing status || !isConnected

/-- ReportForm submission: a disabled submit button fires no submit event,
so `onSubmit(url)` — which is `handleStartAnalysis(url)` with no tweet id —
runs only when the button is enabled (app.jsx lines 483-523, 661). -/
def reportFormSubmit (status : String) (isConnected : Bool) (url : String)
    (st : ClientState) : Option (ClientState × OutMsg) :=
  if reportFormDisabled status isConnected then none
  else some (handleStartAnalysis st (some url) none)

/-- The tweet feed renders `tweets.slice(0, 30)` (app.jsx line 736). -/
def renderedFeed (st : ClientState) : List Tweet :=
  st.tweets.take 30

/-- The props App passes to SourceResult:
`tweet={sourceTweet} iterations={iterations}` (app.jsx line 759). -/
def sourceResultProps (st : ClientState) : Option Tweet × Nat :=
  (st.sourceTweet, st.iterations)

/-- The page address as the client sees it: `window.location.pathname` and
the query string as key/value pairs (URLSearchParams). -/
structure PageUrl where
  pathname : String
  query : List (String × String)
  deriving Repr, DecidableEq

/-- `params.get('tweet')`: the value of the first occurrence of a query
parameter, or `none` when absent. -/
def getQueryParam (query : List (String × String)) (k : String) :
    Option String :=
  (query.find? (fun p => p.1 == k)).map (fun p => p.2)

/-- The connection effect of App (app.jsx lines 591-608): when the socket
is connected it sends `get_tweets {limit: 50}` and `get_volume`; then, if
the URL has a truthy `tweet` parameter (absent and empty-string values are
falsy in JavaScript) and the status is `idle`, it clears the query string
via `history.replaceState` to the bare pathname and runs
`handleStartAnalysis(null, tweetId)`. Returns the new client state, the
new page address, and the requests sent, in order. -/
def onConnected (st : ClientState) (url : PageUrl) (isConnected : Bool) :
    ClientState × PageUrl × List OutMsg :=
  if isConnected then
    let msgs : List OutMsg := [.get_tweets 50, .get_volume]
    match getQueryParam url.query "tweet" with
    | some tid =>
        if tid ≠ "" ∧ st.status = "idle" then
          let r := handleStartAnalysis st none (some tid)
          (r.1, ⟨url.pathname, []⟩, msgs ++ [r.2])
        else (st, url, msgs)
    | none => (st, url, msgs)
  else (st, url, [])

/-- Modelled from the spec: the backend Session Coordinator is not under
src/ (the README lists backend/main.py etc., absent from the tree).
Spec section 4.4: `idle` is the only state accepting a new start request;
a start request while not `idle` fails with `BusySessionError`. -/
inductive SessionError where
  | busySessionError
  deriving Repr, DecidableEq

/-- Modelled from the spec: accepting or rejecting a start request based
on the session status (spec section 4.4). -/
def sessionStart (status : String) : Except SessionError Unit :=
  if status = "idle" then .ok () else .error .busySessionError

/-- A window is well formed when `low_hour ≤ high_hour`
(spec section 3, SearchWindow invariant). -/
def validWindow (w : SearchWindow) : Prop :=
  w.low_hour ≤ w.high_hour

instance (w : SearchWindow) : Decidable (validWindow w) := by
  unfold validWindow; infer_instance

/-- `inner` is contained in `outer` (interval inclusion). -/
def subWindow (inner outer : SearchWindow) : Prop :=
  outer.low_hour ≤ inner.low_hour ∧ inner.high_hour ≤ outer.high_hour

instance (a b : SearchWindow) : Decidable (subWindow a b) := by
  unfold subWindow; infer_instance

/-- Modelled from the spec: one iteration of the Window Narrowing Search
(spec section 4.3, backend search code absent from src/): compute
`mid = (low_hour + high_hour) / 2`; when matching posts exist before `mid`
set `high_hour = mid`, otherwise set `low_hour = mid`. -/
def narrowStep (w : SearchWindow) (matchesBefore : Bool) : SearchWindow :=
  let mid := (w.low_hour + w.high_hour) / 2
  if matchesBefore then ⟨w.low_hour, mid⟩ else ⟨mid, w.high_hour⟩

/-- The sequence of windows produced by iterating `narrowStep`, one entry
per iteration, given each iteration's partition outcome. -/
def narrowTraj (w : SearchWindow) : List Bool → List SearchWindow
  | [] => []
  | d :: ds =>
      let w1 := narrowStep w d
      w1 :: narrowTraj w1 ds

theorem narrowStep_valid (w : SearchWindow) (d : Bool) (h : validWindow w) :
    validWindow (narrowStep w d) := by
  unfold validWindow at h ⊢
  unfold narrowStep
  dsimp only
  split <;> dsimp only <;> linarith

theorem narrowStep_sub (w : SearchWindow) (d : Bool) (h : validWindow w) :
    subWindow (narrowStep w d) w := by
  unfold validWindow at h
  unfold subWindow narrowStep
  dsimp only
  split <;> dsimp only <;> constructor <;> linarith

theorem narrowTraj_chain (ds : List Bool) :
    ∀ w : SearchWindow, validWindow w →
      List.Chain (fun a b => subWindow b a) w (narrowTraj w ds) ∧
      ∀ x ∈ w :: narrowTraj w ds, validWindow x := by
  induction ds with
  | nil =>
      intro w hw
      refine ⟨List.Chain.nil, ?_⟩
      intro x hx
      simp only [narrowTraj, List.mem_singleton] at hx
      subst hx; exact hw
  | cons d ds ih =>
      intro w hw
      have hv := narrowStep_valid w d hw
      have hs := narrowStep_sub w d hw
      obtain ⟨hchain, hall⟩ := ih (narrowStep w d) hv
      constructor
      · exact List.Chain.cons hs hchain
      · intro x hx
        simp only [narrowTraj, List.mem_cons] at hx
        rcases hx with rfl | hx
        · exact hw
        · exact hall x (by simpa using hx)

/-! Concrete data used by counterexamples and witnesses. -/

/-- A tweet carrying no engagement-counter record at all. -/
def noMetricsTweet : Tweet :=
  ⟨some "t1", none, "hello", "2024-05-01T09:00:00Z", none, none, false⟩

/-- A tweet carrying `public_metrics` with retweet 5, like 7, reply 3. -/
def exTweet : Tweet :=
  ⟨some "42", none, "hello world", "2024-05-01T10:00:00Z", none,
    some ⟨5, 7, 3⟩, false⟩

/-- A page address with no query parameters. -/
def examplePage : PageUrl := ⟨"/", []⟩

/-- A page address carrying `?tweet=123`. -/
def tweetPage : PageUrl := ⟨"/", [("tweet", "123")]⟩

/-- A page address carrying `?tweet=` (parameter present, empty value). -/
def emptyParamPage : PageUrl := ⟨"/", [("tweet", "")]⟩

/-! Claim theorems. -/

/-- Claim C1, counterexample: the `statusConfig` object of StatusBadge has
no `failed` entry, so a stored status of `failed` renders with exactly the
idle configuration — it is not displayed distinguishably from idle. -/
theorem C1_counterexample :
    statusConfig "failed" = none ∧
    statusBadgeConfig "failed" = statusBadgeConfig "idle" := by
  constructor <;> rfl

/-- Claim C1, amended: every inbound `status` event stores the carried
status value; the badge has pairwise distinct configurations for the four
statuses idle, analyzing, searching, found; `failed` has no entry of its
own and falls back to the idle configuration. -/
theorem C1_status_badge (st : ClientState) (s : String) :
    (handleMessage st (.status s)).status = s ∧
    statusBadgeConfig "idle" ≠ statusBadgeConfig "analyzing" ∧
    statusBadgeConfig "idle" ≠ statusBadgeConfig "searching" ∧
    statusBadgeConfig "idle" ≠ statusBadgeConfig "found" ∧
    statusBadgeConfig "analyzing" ≠ statusBadgeConfig "searching" ∧
    statusBadgeConfig "analyzing" ≠ statusBadgeConfig "found" ∧
    statusBadgeConfig "searching" ≠ statusBadgeConfig "found" ∧
    statusConfig "failed" = none ∧
    statusBadgeConfig "failed" = statusBadgeConfig "idle" := by
  refine ⟨?_, by decide, by decide, by decide, by decide, by decide,
    by decide, rfl, rfl⟩
  simp only [handleMessage]
  split <;> rfl

/-- Claim C2: `handleStartAnalysis` empties the log list, keywords and
bigrams, clears the source tweet, resets the iteration count to 0 and the
search window to `[0, 24]`, and the request it sends is `start_analysis`
with the given url and tweet id. -/
theorem C2_start_resets (st : ClientState) (url tweetId : Option String) :
    (handleStartAnalysis st url tweetId).1.logs = [] ∧
    (handleStartAnalysis st url tweetId).1.keywords = [] ∧
    (handleStartAnalysis st url tweetId).1.bigrams = [] ∧
    (handleStartAnalysis st url tweetId).1.sourceTweet = none ∧
    (handleStartAnalysis st url tweetId).1.iterations = 0 ∧
    (handleStartAnalysis st url tweetId).1.searchWindow = ⟨0, 24⟩ ∧
    (handleStartAnalysis st url tweetId).2 =
      .start_analysis url tweetId :=
  ⟨rfl, rfl, rfl, rfl, rfl, rfl, rfl⟩

/-- Claim C3 (spec-modelled narrowing search): starting from any well
formed window, along the whole iteration trajectory each window is
contained in its predecessor, and `low_hour ≤ high_hour` holds for every
window of the run. -/
theorem C3_window_narrows (w : SearchWindow) (ds : List Bool)
    (h : validWindow w) :
    List.Chain (fun a b => subWindow b a) w (narrowTraj w ds) ∧
    ∀ x ∈ w :: narrowTraj w ds, validWindow x :=
  narrowTraj_chain ds w h

/-- Witness for C3 at the initial window `[0, 24]` and a two-iteration
run. -/
theorem C3_witness :
    validWindow ⟨0, 24⟩ ∧
    (List.Chain (fun a b => subWindow b a) ⟨0, 24⟩
        (narrowTraj ⟨0, 24⟩ [true, false]) ∧
      ∀ x ∈ (⟨0, 24⟩ : SearchWindow) :: narrowTraj ⟨0, 24⟩ [true, false],
        validWindow x) :=
  ⟨by decide, C3_window_narrows ⟨0, 24⟩ [true, false] (by decide)⟩

/-- Claim C4: a `search_progress` event sets the search window to exactly
the carried bounds and leaves every other client-state field unchanged. -/
theorem C4_search_progress_frame (st : ClientState) (lo hi : ℚ) :
    (handleMessage st (.search_progress lo hi)).searchWindow = ⟨lo, hi⟩ ∧
    (handleMessage st (.search_progress lo hi)).status = st.status ∧
    (handleMessage st (.search_progress lo hi)).logs = st.logs ∧
    (handleMessage st (.search_progress lo hi)).keywords = st.keywords ∧
    (handleMessage st (.search_progress lo hi)).bigrams = st.bigrams ∧
    (handleMessage st (.search_progress lo hi)).volumeData =
      st.volumeData ∧
    (handleMessage st (.search_progress lo hi)).sourceTweet =
      st.sourceTweet ∧
    (handleMessage st (.search_progress lo hi)).iterations =
      st.iterations ∧
    (handleMessage st (.search_progress lo hi)).tweets = st.tweets ∧
    (handleMessage st (.search_progress lo hi)).isNLPLoading =
      st.isNLPLoading :=
  ⟨rfl, rfl, rfl, rfl, rfl, rfl, rfl, rfl, rfl, rfl⟩

theorem handleMessage_logs (st : ClientState) (e : InEvent) :
    (handleMessage st e).logs = st.logs ++ logEvents [e] := by
  cases e with
  | status s =>
      simp only [handleMessage, logEvents]
      split <;> simp
  | log ts lvl m => simp [handleMessage, logEvents]
  | volume d => simp [handleMessage, logEvents]
  | nlp_result ks bs => simp [handleMessage, logEvents]
  | search_progress lo hi => simp [handleMessage, logEvents]
  | source_found t n => simp [handleMessage, logEvents]
  | tweets d => simp [handleMessage, logEvents]
  | analysis_complete => simp [handleMessage, logEvents]

theorem processEvents_logs (evs : List InEvent) :
    ∀ st : ClientState,
      (processEvents st evs).logs = st.logs ++ logEvents evs := by
  induction evs with
  | nil => intro st; simp [processEvents, logEvents]
  | cons e es ih =>
      intro st
      have h1 := handleMessage_logs st e
      have h2 := ih (handleMessage st e)
      simp only [processEvents, List.foldl_cons] at h2 ⊢
      rw [h2, h1]
      cases e <;> simp [logEvents]

/-- Claim C5: a `log` event appends exactly one entry at the end of the
log list, and over any whole sequence of inbound events the resulting log
list is the previous one followed by the carried entries in emission
order — so earlier entries are never mutated, removed or reordered. -/
theorem C5_log_append (st : ClientState) (ts : Nat) (lvl msg : String)
    (evs : List InEvent) :
    (handleMessage st (.log ts lvl msg)).logs =
      st.logs ++ [⟨ts, lvl, msg⟩] ∧
    (processEvents st evs).logs = st.logs ++ logEvents evs :=
  ⟨rfl, processEvents_logs evs st⟩

/-- Claim C6: a start request while the session is not `idle` is rejected
with `BusySessionError` (session side modelled from the spec); on the
client, whenever the status is `analyzing` or `searching` or the socket is
not connected, the report form's submit button is disabled, and a disabled
form submits no `start_analysis` request. -/
theorem C6_busy_rejected (status : String) (connected : Bool)
    (url : String) (st : ClientState) :
    (status ≠ "idle" → sessionStart status = .error .busySessionError) ∧
    (status = "analyzing" ∨ status = "searching" ∨ connected = false →
      reportFormDisabled status connected = true) ∧
    (reportFormDisabled status connected = true →
      reportFormSubmit status connected url st = none) := by
  refine ⟨?_, ?_, ?_⟩
  · intro h
    simp [sessionStart, h]
  · rintro (rfl | rfl | rfl) <;> simp [reportFormDisabled, isAnalyzing]
  · intro h
    simp [reportFormSubmit, h]

/-- Witness for C6: a busy session rejects the start, the form is disabled
while analyzing, and a disabled form submits nothing. -/
theorem C6_witness :
    sessionStart "searching" = .error .busySessionError ∧
    reportFormDisabled "analyzing" true = true ∧
    reportFormSubmit "searching" true "u" initialState = none := by
  refine ⟨(C6_busy_rejected "searching" true "u" initialState).1
      (by decide),
    (C6_busy_rejected "analyzing" true "u" initialState).2.1
      (Or.inl rfl),
    (C6_busy_rejected "searching" true "u" initialState).2.2 (by decide)⟩

/-- Claim C7: a `source_found` event stores the carried tweet as the
source candidate and the carried iteration count, and those are exactly
the values handed to the SourceResult display. -/
theorem C7_source_found (st : ClientState) (t : Tweet) (n : Nat) :
    (handleMessage st (.source_found t n)).sourceTweet = some t ∧
    (handleMessage st (.source_found t n)).iterations = n ∧
    sourceResultProps (handleMessage st (.source_found t n)) =
      (some t, n) :=
  ⟨rfl, rfl, rfl⟩

/-- Claim C8, counterexample: a tweet with no engagement-counter record at
all is handled and displayed by the client (it is stored by the `tweets`
event and rendered in the feed), with all three counters rendered as 0 —
so not every handled post carries its counts in a record, and the record,
when present, is `public_metrics`, not `engagement_metrics`. -/
theorem C8_counterexample :
    noMetricsTweet.public_metrics = none ∧
    (handleMessage initialState (.tweets [noMetricsTweet])).tweets =
      [noMetricsTweet] ∧
    renderedFeed (handleMessage initialState (.tweets [noMetricsTweet])) =
      [noMetricsTweet] ∧
    renderedReplyCount noMetricsTweet = 0 ∧
    renderedRetweetCount noMetricsTweet = 0 ∧
    renderedLikeCount noMetricsTweet = 0 :=
  ⟨rfl, rfl, rfl, rfl, rfl, rfl⟩

/-- Claim C8, amended: the reply, retweet and like counts rendered for a
post are read from its optional `public_metrics` record — fields
`reply_count`, `retweet_count`, `like_count` — when it is present, and
default to 0 when it is absent. -/
theorem C8_metrics_source (t : Tweet) (m : PublicMetrics) :
    (t.public_metrics = some m →
      renderedReplyCount t = m.reply_count ∧
      renderedRetweetCount t = m.retweet_count ∧
      renderedLikeCount t = m.like_count) ∧
    (t.public_metrics = none →
      renderedReplyCount t = 0 ∧ renderedRetweetCount t = 0 ∧
      renderedLikeCount t = 0) := by
  constructor <;> intro h <;>
    simp [renderedReplyCount, renderedRetweetCount, renderedLikeCount, h]

/-- Witness for C8 on a tweet carrying metrics retweet 5, like 7,
reply 3. -/
theorem C8_witness :
    renderedReplyCount exTweet = 3 ∧ renderedRetweetCount exTweet = 5 ∧
    renderedLikeCount exTweet = 7 :=
  (C8_metrics_source exTweet ⟨5, 7, 3⟩).1 rfl

/-- Claim C9: the feed renders exactly the first 30 stored tweets — never
more than 30, and nothing at index 30 or beyond — while the request sent
on connection asks for up to 50 tweets. -/
theorem C9_feed_and_request (st : ClientState) (url : PageUrl) :
    renderedFeed st = st.tweets.take 30 ∧
    (renderedFeed st).length ≤ 30 ∧
    (∀ i, 30 ≤ i → (renderedFeed st).get? i = none) ∧
    OutMsg.get_tweets 50 ∈ (onConnected st url true).2.2 := by
  refine ⟨rfl, ?_, ?_, ?_⟩
  · simp [renderedFeed, List.length_take]
  · intro i hi
    apply List.get?_eq_none.mpr
    calc (renderedFeed st).length ≤ 30 := by
          simp [renderedFeed, List.length_take]
      _ ≤ i := hi
  · unfold onConnected
    simp only [if_true]
    cases hq : getQueryParam url.query "tweet" with
    | none => simp
    | some tid =>
        by_cases hc : tid ≠ "" ∧ st.status = "idle"
        · simp [hc]
        · simp [hc]

/-- Witness for C9 at the initial state and a bare page address. -/
theorem C9_witness :
    renderedFeed initialState = [] ∧
    (renderedFeed initialState).length ≤ 30 ∧
    (renderedFeed initialState).get? 30 = none ∧
    OutMsg.get_tweets 50 ∈ (onConnected initialState examplePage true).2.2
    := by
  have h := C9_feed_and_request initialState examplePage
  exact ⟨rfl, h.2.1, h.2.2.1 30 (by norm_num), h.2.2.2⟩

/-- Claim C10, counterexample: with the socket open, status `idle`, and
the page URL carrying the `tweet` parameter with an empty value, the
client neither sends a `start_analysis` request nor touches the address
bar — the parameter is present but falsy, so the auto-start branch is
skipped. -/
theorem C10_counterexample :
    getQueryParam emptyParamPage.query "tweet" = some "" ∧
    initialState.status = "idle" ∧
    (onConnected initialState emptyParamPage true).2.1 = emptyParamPage ∧
    (onConnected initialState emptyParamPage true).2.2 =
      [.get_tweets 50, .get_volume] ∧
    (onConnected initialState emptyParamPage true).1 = initialState := by
  refine ⟨rfl, rfl, ?_, ?_, ?_⟩ <;> rfl

/-- Claim C10, amended: when the connection is open, the page URL carries
a `tweet` parameter with a non-empty value, and the status is `idle`, the
client clears the query string from the address bar (so the parameter is
gone) and sends `start_analysis` with that value as `tweet_id` — after
the usual `get_tweets {limit: 50}` and `get_volume` requests — resetting
the run state as `handleStartAnalysis` does. -/
theorem C10_auto_start (st : ClientState) (url : PageUrl) (tid : String)
    (hparam : getQueryParam url.query "tweet" = some tid) (hne : tid ≠ "")
    (hidle : st.status = "idle") :
    (onConnected st url true).2.1 = ⟨url.pathname, []⟩ ∧
    getQueryParam (onConnected st url true).2.1.query "tweet" = none ∧
    (onConnected st url true).2.2 =
      [.get_tweets 50, .get_volume, .start_analysis none (some tid)] ∧
    (onConnected st url true).1 =
      (handleStartAnalysis st none (some tid)).1 := by
  unfold onConnected
  simp only [hparam, if_true]
  rw [if_pos ⟨hne, hidle⟩]
  exact ⟨rfl, rfl, rfl, rfl⟩

/-- Witness for C10 at the initial state and a page carrying
`?tweet=123`. -/
theorem C10_witness :
    (onConnected initialState tweetPage true).2.1 = ⟨"/", []⟩ ∧
    getQueryParam (onConnected initialState tweetPage true).2.1.query
      "tweet" = none ∧
    (onConnected initialState tweetPage true).2.2 =
      [.get_tweets 50, .get_volume, .start_analysis none (some "123")] ∧
    (onConnected initialState tweetPage true).1 =
      (handleStartAnalysis initialState none (some "123")).1 :=
  C10_auto_start initialState tweetPage "123" rfl (by decide) rfl

end Sarmad
